import Mathlib

/-!
Shallow embedding of the GDSL delta engine (`src/gdsl/diff.c`) and
command-stream verifier (`src/gdsl/verify.c`).

Modelling conventions:

* C `size_t` values are `Nat`; `SIZE_MAX = 2 ^ 64 - 1`.  The one place the C
  code can wrap (`length + page_size - 1` inside `page_count_for_length`) is
  modelled with an explicit `% 2 ^ 64`; the `checked_add` / `checked_mul`
  helpers carry their `SIZE_MAX` overflow guards verbatim, and every other
  `size_t` expression in the sources is provably below `2 ^ 64` whenever its
  inputs are.  The `uint32_t` store `header.chunk_count = (uint32_t)emitted`
  is modelled with an explicit `% 2 ^ 32`.
* Byte buffers are `List Nat`.  A NULL data pointer is identified with the
  empty buffer: on every defined-behaviour path of the C sources a NULL
  check coincides with a zero-length check under this identification.
* The `chunks`/`chunk_count` and `payload`/`payload_length` pointer-length
  pairs of `gdsl_diff_result_t` are modelled as lists whose lengths are the
  C length fields (a well-formed C value keeps them in sync; a mismatch is
  reachable only through undefined behaviour).
* Out-parameters become components of the returned value; a pointer the
  call wrote through is `some`, an untouched one is `none`.
* Heap allocation failure (`OutOfMemory`) and the early returns for NULL
  out-parameters (which write nothing at all) are not modelled.
-/

def SIZE_MAX : Nat := 2 ^ 64 - 1

def GDSL_DIFF_VERSION : Nat := 1

def GDSL_DEFAULT_PAGE_SIZE : Nat := 4096

/-- `page_count_for_length` (diff.c:10).  The sum `length + page_size - 1`
is computed in `size_t`, hence the explicit wrap `% 2 ^ 64`. -/
def page_count_for_length (length page_size : Nat) : Nat :=
  if length = 0 then 0
  else ((length + page_size - 1) % 2 ^ 64) / page_size

/-- `min_size` (diff.c:17). -/
def min_size (a b : Nat) : Nat := if a < b then a else b

/-- `checked_mul` (diff.c:21): multiplication guarded against `size_t`
overflow; `none` models the `-1` failure return and `some` the value stored
through `out` (the NULL-`out` branch is not modelled). -/
def checked_mul (a b : Nat) : Option Nat :=
  if a = 0 ∨ b = 0 then some 0
  else if a > SIZE_MAX / b then none
  else some (a * b)

/-- `checked_add` (diff.c:36). -/
def checked_add (a b : Nat) : Option Nat :=
  if a > SIZE_MAX - b then none
  else some (a + b)

/-- `gdsl_diff_header_t` (diff.h:11). -/
structure gdsl_diff_header_t where
  version : Nat
  page_size : Nat
  flags : Nat
  chunk_count : Nat
  target_length : Nat
deriving DecidableEq, Repr

/-- `gdsl_diff_chunk_t` (diff.h:19). -/
structure gdsl_diff_chunk_t where
  page_index : Nat
  length : Nat
  data_offset : Nat
deriving DecidableEq, Repr

/-- `gdsl_diff_result_t` (diff.h:25); the `chunk_count` and `payload_length`
fields are the lengths of the `chunks` and `payload` lists. -/
structure gdsl_diff_result_t where
  header : gdsl_diff_header_t
  chunks : List gdsl_diff_chunk_t
  payload : List Nat
deriving DecidableEq, Repr

/-- The clamped span `page_end - page_offset` of page `p` (diff.c:110-115). -/
def page_span (max_length page_size p : Nat) : Nat :=
  let page_offset := p * page_size
  let page_end :=
    if page_offset + page_size > max_length then max_length
    else page_offset + page_size
  page_end - page_offset

/-- `target_span` of page `p` (diff.c:120-124). -/
def target_span (base_length target_length page_size p : Nat) : Nat :=
  let max_length := if base_length > target_length then base_length else target_length
  let page_offset := p * page_size
  if page_offset < target_length then
    min_size (page_span max_length page_size p) (target_length - page_offset)
  else 0

/-- `base_available` for a page (diff.c:129-130): the number of target-span
bytes that actually exist in `base`; 0 when the page starts past the end of
`base` (`base_ptr == NULL`). -/
def base_available (base_length tspan page_offset : Nat) : Nat :=
  if page_offset < base_length then min_size tspan (base_length - page_offset)
  else 0

/-- The byte-comparison loop of `gdsl_diff` (diff.c:135-143): the page is
changed iff some byte of the target span differs from the corresponding base
byte, bytes past the end of `base` comparing as 0. -/
def page_changed (base target : List Nat) (page_size p : Nat) : Bool :=
  let tspan := target_span base.length target.length page_size p
  let page_offset := p * page_size
  let bavail := base_available base.length tspan page_offset
  (List.range tspan).any fun i =>
    (if i < bavail then base.getD (page_offset + i) 0 else 0)
      != (if i < tspan then target.getD (page_offset + i) 0 else 0)

/-- The payload bytes emitted for a changed page (diff.c:209-212); the
conditional mirrors `i < target_available` (with `target_available = tspan`
on every path that emits). -/
def page_bytes (target : List Nat) (page_offset tspan : Nat) : List Nat :=
  (List.range tspan).map fun i =>
    if i < tspan then target.getD (page_offset + i) 0 else 0

/-- The emit loop of `gdsl_diff` (second pass, diff.c:164-216) as a recursion
on the number of pages processed: `diff_pass base target ps n` is the chunk
list and payload accumulated over pages `0 … n-1`; the running
`payload_offset` is the length of the accumulated payload. -/
def diff_pass (base target : List Nat) (page_size : Nat) :
    Nat → List gdsl_diff_chunk_t × List Nat
  | 0 => ([], [])
  | n + 1 =>
    let acc := diff_pass base target page_size n
    let tspan := target_span base.length target.length page_size n
    if tspan = 0 then acc
    else if page_changed base target page_size n then
      (acc.1 ++ [⟨n, tspan, acc.2.length⟩],
       acc.2 ++ page_bytes target (n * page_size) tspan)
    else acc

/-- `gdsl_diff` (diff.c:80-226).  The first (counting) pass only sizes the
allocations, so the result is the emit pass directly; the `out`-pointer and
allocation-failure error paths are not modelled, and a NULL `base`/`target`
with nonzero length is not representable (NULL ≡ `[]` ≡ length 0).  The
`uint32_t` cast in `out->header.chunk_count = (uint32_t)emitted` is the
`% 2 ^ 32`. -/
def gdsl_diff (base target : List Nat) : gdsl_diff_result_t :=
  let page_size := GDSL_DEFAULT_PAGE_SIZE
  let max_length := if base.length > target.length then base.length else target.length
  let total_pages := page_count_for_length max_length page_size
  let acc := diff_pass base target page_size total_pages
  { header :=
      { version := GDSL_DIFF_VERSION
        page_size := page_size
        flags := 0
        chunk_count := acc.1.length % 2 ^ 32
        target_length := target.length }
    chunks := acc.1
    payload := acc.2 }

/-- `memcpy(buffer + pos, data, data.length)` on a list buffer. -/
def write_at (buffer : List Nat) (pos : Nat) (data : List Nat) : List Nat :=
  buffer.take pos ++ data ++ buffer.drop (pos + data.length)

/-- One iteration of the patch loop (diff.c:275-316): validate and apply one
chunk to the output buffer; `none` models the `free(buffer); return -1`
failure paths. -/
def patch_apply_chunk (page_size target_length : Nat) (payload buffer : List Nat)
    (chunk : gdsl_diff_chunk_t) : Option (List Nat) :=
  match checked_mul chunk.page_index page_size with
  | none => none
  | some page_offset =>
    if page_offset > target_length then none
    else
      match checked_add page_offset chunk.length with
      | none => none
      | some end_offset =>
        if end_offset > target_length then none
        else if 0 < chunk.length then
          if payload.length = 0 ∨ chunk.data_offset > payload.length then none
          else
            match checked_add chunk.data_offset chunk.length with
            | none => none
            | some payload_end =>
              if payload_end > payload.length then none
              else
                some (write_at buffer page_offset
                  ((payload.drop chunk.data_offset).take chunk.length))
        else some buffer

/-- The chunk loop of `gdsl_patch` (diff.c:275-316). -/
def patch_loop (page_size target_length : Nat) (payload : List Nat) :
    List gdsl_diff_chunk_t → List Nat → Option (List Nat)
  | [], buffer => some buffer
  | chunk :: rest, buffer =>
    match patch_apply_chunk page_size target_length payload buffer chunk with
    | none => none
    | some buffer => patch_loop page_size target_length payload rest buffer

/-- The initial output buffer of `gdsl_patch` (diff.c:264-273): `malloc` +
`memset 0` + `memcpy` of `min(base_length, target_length)` bytes of `base`. -/
def patch_init_buffer (base : List Nat) (target_length : Nat) : List Nat :=
  write_at (List.replicate target_length 0) 0
    (base.take (min_size base.length target_length))

/-- `gdsl_patch` (diff.c:228-321) with the out-parameters returned:
`(return code, *out_buffer, *out_length)`, where `none` models the NULL
`*out_buffer`.  The NULL `diff`/`out_buffer`/`out_length` early return (which
writes nothing) is not modelled; the `chunk_count > 0 && !chunks` reject is
unreachable under the list identification. -/
def gdsl_patch (base : List Nat) (diff : gdsl_diff_result_t) :
    Int × Option (List Nat) × Nat :=
  let target_length := diff.header.target_length
  let page_size :=
    if diff.header.page_size ≠ 0 then diff.header.page_size
    else GDSL_DEFAULT_PAGE_SIZE
  if diff.chunks.length > 0 ∧ diff.payload.length = 0 ∧
      diff.chunks.any (fun c => 0 < c.length) then
    (-1, none, 0)
  else if target_length = 0 then
    if diff.chunks.length ≠ 0 then (-1, none, 0) else (0, none, 0)
  else
    match patch_loop page_size target_length diff.payload diff.chunks
        (patch_init_buffer base target_length) with
    | none => (-1, none, 0)
    | some buffer => (0, some buffer, target_length)

/-- `gdsl_read_changed_set` (diff.c:323-348) with out-parameters returned:
`(return code, *out_pages, *out_count)`; `out_pages_nonnull = false` models a
NULL `out_pages`, and a `none` component models an out-parameter the call
never wrote.  The NULL `diff`/`out_count` early return is not modelled and
the `chunk_count > 0 && !chunks` reject is unreachable under the list
identification. -/
def gdsl_read_changed_set (diff : gdsl_diff_result_t) (out_pages_nonnull : Bool)
    (max_pages : Nat) : Int × Option (List Nat) × Option Nat :=
  let unique_pages := diff.chunks.length
  if out_pages_nonnull then
    if max_pages < unique_pages then (-1, none, none)
    else (0, some (diff.chunks.map fun c => c.page_index), some unique_pages)
  else (0, none, some unique_pages)

/-- `gdsl_phase_t` (verify.c:9). -/
inductive gdsl_phase_t where
  | build | record | submitted | idle | finished
deriving DecidableEq, Repr

/-- `gdsl_domain_t` (verify.c:17). -/
inductive gdsl_domain_t where
  | host | device
deriving DecidableEq, Repr

/-- `gdsl_state_t` (verify.c:53). -/
structure gdsl_state_t where
  phase : gdsl_phase_t
  domain : gdsl_domain_t
  snapshot_active : Bool
deriving DecidableEq, Repr

/-- `gdsl_state_reset` (verify.c:59). -/
def gdsl_state_reset : gdsl_state_t :=
  { phase := .build, domain := .host, snapshot_active := false }

/-- `gdsl_opcode_table` (verify.c:40-51): `(name, size)` metadata for the ten
known opcodes; `none` models the zero-initialised entries whose `name` is
NULL. -/
def gdsl_opcode_table (op : Nat) : Option (String × Nat) :=
  if op = 0x00 then some ("NOP", 1)
  else if op = 0x01 then some ("BEGIN_STREAM", 1)
  else if op = 0x02 then some ("BARRIER", 1)
  else if op = 0x03 then some ("SUBMIT", 1)
  else if op = 0x04 then some ("FENCE_WAIT", 1)
  else if op = 0x05 then some ("END_STREAM", 1)
  else if op = 0x06 then some ("END_PROGRAM", 1)
  else if op = 0x07 then some ("SNAPSHOT_BEGIN", 1)
  else if op = 0x08 then some ("SNAPSHOT_END", 1)
  else if op = 0x09 then some ("CHECKPOINT", 1)
  else none

/-- The diagnostic message texts of verify.c, one constructor per
`add_diagnostic` format call site, carrying the formatted arguments:
`null_stream_message` = "null stream pointer with non-zero length",
`unknown_opcode op` = "unknown opcode 0x%02x",
`truncated_instruction name` = "truncated instruction for %s",
`not_allowed_in_phase op expected` = "%s not allowed in %s phase",
`begin_stream_in_snapshot` = "cannot BEGIN_STREAM while snapshot is active",
`submit_in_snapshot` = "cannot SUBMIT inside a snapshot",
`barrier_implicit_promotion` = "BARRIER issued outside device domain; assuming implicit promotion",
`nested_snapshot_begin` = "nested SNAPSHOT_BEGIN not allowed",
`snapshot_requires_host_domain` = "snapshots require host domain but current domain is device",
`snapshot_end_without_begin` = "SNAPSHOT_END without SNAPSHOT_BEGIN",
`end_stream_pending_work` = "END_STREAM while GPU work still pending; assuming idle transition",
`unterminated_snapshot` = "unterminated snapshot region",
`not_finished` = "stream did not reach END_STREAM/END_PROGRAM".
All of these fit well inside the 256-byte message buffer, so `vsnprintf`
truncation never occurs. -/
inductive gdsl_message where
  | null_stream_message
  | unknown_opcode (op : Nat)
  | truncated_instruction (name : String)
  | not_allowed_in_phase (op expected : String)
  | begin_stream_in_snapshot
  | submit_in_snapshot
  | barrier_implicit_promotion
  | nested_snapshot_begin
  | snapshot_requires_host_domain
  | snapshot_end_without_begin
  | end_stream_pending_work
  | unterminated_snapshot
  | not_finished
deriving DecidableEq, Repr

/-- `gdsl_verify_severity_t` (verify.h:14). -/
inductive gdsl_verify_severity_t where
  | info | warning | error
deriving DecidableEq, Repr

/-- `GDSL_VERIFY_MAX_DIAGNOSTICS` (verify.h:11). -/
def GDSL_VERIFY_MAX_DIAGNOSTICS : Nat := 64

/-- `gdsl_verify_diagnostic_t` (verify.h:26). -/
structure gdsl_verify_diagnostic_t where
  instruction_index : Nat
  severity : gdsl_verify_severity_t
  message : gdsl_message
deriving DecidableEq, Repr

/-- `gdsl_verify_report_t` (verify.h:32); the fixed 64-slot diagnostics array
is modelled as the list of its first `diagnostic_count` entries. -/
structure gdsl_verify_report_t where
  success : Bool
  instruction_count : Nat
  error_count : Nat
  warning_count : Nat
  info_count : Nat
  diagnostic_count : Nat
  diagnostics : List gdsl_verify_diagnostic_t
deriving DecidableEq, Repr

/-- The report after `memset(report, 0, ...); report->success = 0`
(verify.c:109-110). -/
def init_report : gdsl_verify_report_t :=
  { success := false, instruction_count := 0, error_count := 0,
    warning_count := 0, info_count := 0, diagnostic_count := 0,
    diagnostics := [] }

/-- `add_diagnostic` (verify.c:65-91): once the 64-slot buffer is full the
diagnostic is dropped entirely; otherwise it is recorded and the matching
severity counter is bumped. -/
def add_diagnostic (r : gdsl_verify_report_t) (idx : Nat)
    (sev : gdsl_verify_severity_t) (m : gdsl_message) : gdsl_verify_report_t :=
  if r.diagnostic_count ≥ GDSL_VERIFY_MAX_DIAGNOSTICS then r
  else
    let r := { r with
      diagnostics := r.diagnostics ++ [(⟨idx, sev, m⟩ : gdsl_verify_diagnostic_t)]
      diagnostic_count := r.diagnostic_count + 1 }
    if sev = .error then { r with error_count := r.error_count + 1 }
    else if sev = .warning then { r with warning_count := r.warning_count + 1 }
    else { r with info_count := r.info_count + 1 }

/-- `report_transition_error` (verify.c:93). -/
def report_transition_error (r : gdsl_verify_report_t) (idx : Nat)
    (op expected : String) : gdsl_verify_report_t :=
  add_diagnostic r idx .error (.not_allowed_in_phase op expected)

/-- `GDSL_VERIFY_LEVEL_SYNTAX` (verify.h:21). -/
def GDSL_VERIFY_LEVEL_SYNTAX : Nat := 0

/-- `GDSL_VERIFY_LEVEL_PHASE` (verify.h:22). -/
def GDSL_VERIFY_LEVEL_PHASE : Nat := 1

/-- `GDSL_VERIFY_LEVEL_DOMAIN` (verify.h:23). -/
def GDSL_VERIFY_LEVEL_DOMAIN : Nat := 2

/-- The `switch (opcode)` body of `gdsl_verify` (verify.c:146-260): the
per-opcode checks and the unconditional state update. -/
def apply_opcode (op : Nat) (name : String) (level idx : Nat)
    (st : gdsl_state_t) (r : gdsl_verify_report_t) :
    gdsl_state_t × gdsl_verify_report_t :=
  match op with
  | 0x01 =>
    let r :=
      if GDSL_VERIFY_LEVEL_PHASE ≤ level then
        let r :=
          if st.snapshot_active then
            add_diagnostic r idx .error .begin_stream_in_snapshot
          else r
        if st.phase ≠ .build ∧ st.phase ≠ .idle then
          report_transition_error r idx name
            (if st.phase = .record then "Record" else "Idle")
        else r
      else r
    ({ st with phase := .record }, r)
  | 0x02 =>
    let r :=
      if GDSL_VERIFY_LEVEL_PHASE ≤ level ∧ st.phase ≠ .record then
        report_transition_error r idx name "Record"
      else r
    if GDSL_VERIFY_LEVEL_DOMAIN ≤ level ∧ st.domain ≠ .device then
      ({ st with domain := .device },
       add_diagnostic r idx .warning .barrier_implicit_promotion)
    else (st, r)
  | 0x03 =>
    let r :=
      if GDSL_VERIFY_LEVEL_PHASE ≤ level then
        let r :=
          if st.phase ≠ .record then report_transition_error r idx name "Record"
          else r
        if st.snapshot_active then add_diagnostic r idx .error .submit_in_snapshot
        else r
      else r
    ({ st with phase := .submitted, domain := .device }, r)
  | 0x04 =>
    let r :=
      if GDSL_VERIFY_LEVEL_PHASE ≤ level ∧ st.phase ≠ .submitted then
        report_transition_error r idx name "Submitted"
      else r
    ({ st with phase := .idle, domain := .host }, r)
  | 0x05 =>
    let r :=
      if GDSL_VERIFY_LEVEL_PHASE ≤ level ∧ st.phase ≠ .idle ∧ st.phase ≠ .record then
        report_transition_error r idx name "Idle"
      else r
    let r :=
      if st.phase = .record ∧ GDSL_VERIFY_LEVEL_PHASE ≤ level then
        add_diagnostic r idx .warning .end_stream_pending_work
      else r
    ({ st with phase := .finished }, r)
  | 0x06 =>
    let r :=
      if GDSL_VERIFY_LEVEL_PHASE ≤ level ∧ st.phase ≠ .finished then
        report_transition_error r idx name "Finished"
      else r
    (st, r)
  | 0x07 =>
    let r :=
      if GDSL_VERIFY_LEVEL_DOMAIN ≤ level then
        let r :=
          if st.snapshot_active then
            add_diagnostic r idx .error .nested_snapshot_begin
          else r
        let r :=
          if st.phase ≠ .idle then report_transition_error r idx name "Idle"
          else r
        if st.domain ≠ .host then
          add_diagnostic r idx .error .snapshot_requires_host_domain
        else r
      else r
    ({ st with snapshot_active := true }, r)
  | 0x08 =>
    let r :=
      if GDSL_VERIFY_LEVEL_DOMAIN ≤ level ∧ st.snapshot_active = false then
        add_diagnostic r idx .error .snapshot_end_without_begin
      else r
    ({ st with snapshot_active := false }, r)
  | 0x09 =>
    let r :=
      if GDSL_VERIFY_LEVEL_DOMAIN ≤ level ∧ st.phase ≠ .idle then
        report_transition_error r idx name "Idle"
      else r
    (st, r)
  | _ => (st, r)

/-- The decode loop of `gdsl_verify` (verify.c:124-264), recursing on the
remaining bytes; returns the final state, the final `instruction_index`, and
the report.  `offset + meta->size > length` is `remaining.length < size`. -/
def scan_loop (level : Nat) : List Nat → Nat → gdsl_state_t →
    gdsl_verify_report_t → gdsl_state_t × Nat × gdsl_verify_report_t
  | [], idx, st, r => (st, idx, r)
  | op :: rest, idx, st, r =>
    match gdsl_opcode_table op with
    | none =>
      scan_loop level rest (idx + 1) st
        (add_diagnostic r idx .error (.unknown_opcode op))
    | some meta =>
      if h : meta.2 = 0 ∨ (op :: rest).length < meta.2 then
        (st, idx, add_diagnostic r idx .error (.truncated_instruction meta.1))
      else
        let r := { r with instruction_count := r.instruction_count + 1 }
        let sr := apply_opcode op meta.1 level idx st r
        scan_loop level ((op :: rest).drop meta.2) (idx + 1) sr.1 sr.2
  termination_by l => l.length
  decreasing_by
    · simp
    · simp only [List.length_drop, List.length_cons]
      omega

/-- The scan and terminal checks of `gdsl_verify` (verify.c:118-277) for a
non-NULL stream whose bytes are `bytes` (the C `length` argument being
`bytes.length`). -/
def gdsl_verify_scan (bytes : List Nat) (level : Nat) : gdsl_verify_report_t :=
  let out := scan_loop level bytes 0 gdsl_state_reset init_report
  let r := out.2.2
  let r :=
    if out.1.snapshot_active then
      add_diagnostic r out.2.1 .error .unterminated_snapshot
    else r
  let r :=
    if out.1.phase ≠ .finished then
      add_diagnostic r out.2.1 .error .not_finished
    else r
  { r with success := r.error_count == 0 }

/-- `gdsl_verify` (verify.c:101-278) with the out-parameter returned:
`(return code, final report)`.  `stream = none` models a NULL stream pointer
with the given `length`; `stream = some l` models a valid buffer, for which
the C `length` argument is at most `l.length` (the scan reads
`l.take length`).  `report_nonnull = false` models a NULL report pointer,
whose early return writes nothing. -/
def gdsl_verify (stream : Option (List Nat)) (length level : Nat)
    (report_nonnull : Bool) : Int × Option gdsl_verify_report_t :=
  if report_nonnull = false then (-1, none)
  else if stream = none ∧ 0 < length then
    (0, some (add_diagnostic init_report 0 .error .null_stream_message))
  else (0, some (gdsl_verify_scan ((stream.getD []).take length) level))

/-- Classifier for the two diagnostics the Syntax-level scan body can emit:
unknown-opcode and truncated-instruction. -/
def msg_is_syntax_only : gdsl_message → Bool
  | .unknown_opcode _ => true
  | .truncated_instruction _ => true
  | _ => false

/-- `offsets_from off chunks`: successive `data_offset`s form the running
prefix sums of the chunk lengths, starting at `off`. -/
def offsets_from : Nat → List gdsl_diff_chunk_t → Prop
  | _, [] => True
  | off, c :: rest => c.data_offset = off ∧ offsets_from (off + c.length) rest

/-- `chunk_covers ps c j`: output byte `j` lies in the half-open range that
chunk `c` writes. -/
def chunk_covers (page_size : Nat) (c : gdsl_diff_chunk_t) (j : Nat) : Prop :=
  c.page_index * page_size ≤ j ∧ j < c.page_index * page_size + c.length

/-! ## Lemmas about the verifier -/

lemma add_diagnostic_count_le {r : gdsl_verify_report_t} {idx : Nat}
    {sev : gdsl_verify_severity_t} {m : gdsl_message}
    (h : r.diagnostic_count ≤ 64) :
    (add_diagnostic r idx sev m).diagnostic_count ≤ 64 := by
  unfold add_diagnostic GDSL_VERIFY_MAX_DIAGNOSTICS
  split_ifs with h1 h2 h3
  · exact h
  · simp only []; omega
  · simp only []; omega
  · simp only []; omega

lemma add_diagnostic_full {r : gdsl_verify_report_t} {idx : Nat}
    {sev : gdsl_verify_severity_t} {m : gdsl_message}
    (h : GDSL_VERIFY_MAX_DIAGNOSTICS ≤ r.diagnostic_count) :
    add_diagnostic r idx sev m = r := by
  unfold add_diagnostic
  rw [if_pos h]

lemma add_diagnostic_mem {r : gdsl_verify_report_t} {idx : Nat}
    {sev : gdsl_verify_severity_t} {m : gdsl_message}
    {d : gdsl_verify_diagnostic_t}
    (hd : d ∈ (add_diagnostic r idx sev m).diagnostics) :
    d ∈ r.diagnostics ∨ d = ⟨idx, sev, m⟩ := by
  unfold add_diagnostic at hd
  split_ifs at hd <;> simp_all

lemma apply_opcode_preserves (P : gdsl_verify_report_t → Prop)
    (hadd : ∀ r idx sev m, P r → P (add_diagnostic r idx sev m))
    (op : Nat) (name : String) (level idx : Nat) (st : gdsl_state_t)
    (r : gdsl_verify_report_t) (h : P r) :
    P (apply_opcode op name level idx st r).2 := by
  unfold apply_opcode report_transition_error
  split <;> (try split_ifs) <;> first | exact h | solve_by_elim

lemma apply_opcode_level_zero (op : Nat) (name : String) (idx : Nat)
    (st : gdsl_state_t) (r : gdsl_verify_report_t) :
    (apply_opcode op name GDSL_VERIFY_LEVEL_SYNTAX idx st r).2 = r := by
  unfold apply_opcode GDSL_VERIFY_LEVEL_SYNTAX GDSL_VERIFY_LEVEL_PHASE
    GDSL_VERIFY_LEVEL_DOMAIN
  split <;> (try split_ifs) <;> simp_all

lemma scan_loop_count_le (level : Nat) :
    ∀ (l : List Nat) (idx : Nat) (st : gdsl_state_t) (r : gdsl_verify_report_t),
    r.diagnostic_count ≤ 64 →
    (scan_loop level l idx st r).2.2.diagnostic_count ≤ 64 := by
  intro l idx st r
  induction l, idx, st, r using scan_loop.induct level with
  | case1 idx st r =>
    intro h
    simpa [scan_loop] using h
  | case2 op rest idx st r hnone ih =>
    intro h
    rw [scan_loop]
    simp only [hnone]
    exact ih (add_diagnostic_count_le h)
  | case3 op rest idx st r meta hsome hcond =>
    intro h
    rw [scan_loop]
    simp only [hsome]
    rw [dif_pos hcond]
    exact add_diagnostic_count_le h
  | case4 op rest idx st r meta hsome hcond r1 sr ih =>
    intro h
    rw [scan_loop]
    simp only [hsome]
    rw [dif_neg hcond]
    exact ih (apply_opcode_preserves (fun r => r.diagnostic_count ≤ 64)
      (fun _ _ _ _ => add_diagnostic_count_le) _ _ _ _ _ _ h)

lemma scan_loop_zero_msgs :
    ∀ (l : List Nat) (idx : Nat) (st : gdsl_state_t) (r : gdsl_verify_report_t),
    (∀ d ∈ r.diagnostics, msg_is_syntax_only d.message = true) →
    ∀ d ∈ (scan_loop GDSL_VERIFY_LEVEL_SYNTAX l idx st r).2.2.diagnostics,
      msg_is_syntax_only d.message = true := by
  intro l idx st r
  induction l, idx, st, r using scan_loop.induct GDSL_VERIFY_LEVEL_SYNTAX with
  | case1 idx st r =>
    intro h
    simpa [scan_loop] using h
  | case2 op rest idx st r hnone ih =>
    intro h
    rw [scan_loop]
    simp only [hnone]
    apply ih
    intro d hd
    rcases add_diagnostic_mem hd with h1 | h1
    · exact h d h1
    · subst h1; rfl
  | case3 op rest idx st r meta hsome hcond =>
    intro h
    rw [scan_loop]
    simp only [hsome]
    rw [dif_pos hcond]
    intro d hd
    rcases add_diagnostic_mem hd with h1 | h1
    · exact h d h1
    · subst h1; rfl
  | case4 op rest idx st r meta hsome hcond r1 sr ih =>
    intro h
    rw [scan_loop]
    simp only [hsome]
    rw [dif_neg hcond]
    apply ih
    rw [apply_opcode_level_zero]
    exact h

lemma gdsl_verify_scan_success_iff (bytes : List Nat) (level : Nat) :
    ((gdsl_verify_scan bytes level).success = true ↔
      (gdsl_verify_scan bytes level).error_count = 0) := by
  unfold gdsl_verify_scan
  simp

lemma gdsl_verify_scan_count_le (bytes : List Nat) (level : Nat) :
    (gdsl_verify_scan bytes level).diagnostic_count ≤ 64 := by
  have h0 : (scan_loop level bytes 0 gdsl_state_reset init_report).2.2.diagnostic_count ≤ 64 :=
    scan_loop_count_le level bytes 0 _ _ (by simp [init_report])
  simp only [gdsl_verify_scan]
  split_ifs <;>
    first
      | exact h0
      | exact add_diagnostic_count_le h0
      | exact add_diagnostic_count_le (add_diagnostic_count_le h0)

/-! ## Claim theorems: verifier -/

/-- C6: for every stream, length, and level, `gdsl_verify` with a non-null
report returns success (0) and the produced report's `success` flag is set
iff `error_count = 0`; with a null report it returns non-success. -/
theorem gdsl_verify_return_and_success_iff (stream : Option (List Nat))
    (length level : Nat) :
    (gdsl_verify stream length level true).1 = 0 ∧
    (∀ r, (gdsl_verify stream length level true).2 = some r →
      (r.success = true ↔ r.error_count = 0)) ∧
    (gdsl_verify stream length level false).1 ≠ 0 := by
  refine ⟨?_, ?_, ?_⟩
  · by_cases h1 : stream = none ∧ 0 < length <;> simp [gdsl_verify, h1]
  · intro r hr
    by_cases h1 : stream = none ∧ 0 < length
    · simp [gdsl_verify, h1] at hr
      subst hr
      decide
    · simp [gdsl_verify, h1] at hr
      subst hr
      exact gdsl_verify_scan_success_iff _ _
  · simp [gdsl_verify]

/-- C6 witness: concrete instantiation at the two-byte stream
`END_STREAM END_PROGRAM` at Phase level. -/
theorem gdsl_verify_return_and_success_iff_witness :
    (gdsl_verify (some [5, 6]) 2 1 true).1 = 0 ∧
    ((gdsl_verify_scan [5, 6] 1).success = true ↔
      (gdsl_verify_scan [5, 6] 1).error_count = 0) :=
  ⟨(gdsl_verify_return_and_success_iff (some [5, 6]) 2 1).1,
   (gdsl_verify_return_and_success_iff (some [5, 6]) 2 1).2.1 _
     (by simp [gdsl_verify])⟩

/-- C7: every report produced by `gdsl_verify` holds at most 64 diagnostics,
and once the buffer is full `add_diagnostic` drops the diagnostic entirely,
leaving the report — its per-severity counters included — unchanged. -/
theorem gdsl_verify_diagnostics_capped (stream : Option (List Nat))
    (length level : Nat) (report_nonnull : Bool) :
    (∀ r, (gdsl_verify stream length level report_nonnull).2 = some r →
      r.diagnostic_count ≤ GDSL_VERIFY_MAX_DIAGNOSTICS) ∧
    (∀ (r : gdsl_verify_report_t) (idx : Nat) (sev : gdsl_verify_severity_t)
      (m : gdsl_message), GDSL_VERIFY_MAX_DIAGNOSTICS ≤ r.diagnostic_count →
      add_diagnostic r idx sev m = r) := by
  constructor
  · intro r hr
    cases report_nonnull with
    | false => simp [gdsl_verify] at hr
    | true =>
      by_cases h1 : stream = none ∧ 0 < length
      · simp [gdsl_verify, h1] at hr
        subst hr
        decide
      · simp [gdsl_verify, h1] at hr
        subst hr
        exact gdsl_verify_scan_count_le _ _
  · intro r idx sev m h
    exact add_diagnostic_full h

/-- C7 witness: the cap holds on the report for the single-NOP stream, and a
report already holding 64 diagnostics absorbs a further one unchanged. -/
theorem gdsl_verify_diagnostics_capped_witness :
    (gdsl_verify_scan [0] 0).diagnostic_count ≤ GDSL_VERIFY_MAX_DIAGNOSTICS ∧
    add_diagnostic
      { success := false, instruction_count := 0, error_count := 0,
        warning_count := 0, info_count := 0, diagnostic_count := 64,
        diagnostics := [] } 0 .error .not_finished =
      { success := false, instruction_count := 0, error_count := 0,
        warning_count := 0, info_count := 0, diagnostic_count := 64,
        diagnostics := [] } :=
  ⟨(gdsl_verify_diagnostics_capped (some [0]) 1 0 true).1 _
     (by simp [gdsl_verify]),
   (gdsl_verify_diagnostics_capped (some [0]) 1 0 true).2 _ 0 .error
     .not_finished (by decide)⟩

/-- C4 counterexample: at Syntax level (0) the empty stream produces the
end-of-scan terminal diagnostic "stream did not reach END_STREAM/END_PROGRAM",
which is neither an unknown-opcode nor a truncated-instruction error, so not
every Syntax-level diagnostic is of those two kinds. -/
theorem gdsl_verify_syntax_level_counterexample :
    (gdsl_verify_scan [] GDSL_VERIFY_LEVEL_SYNTAX).diagnostics =
      [⟨0, .error, .not_finished⟩] ∧
    msg_is_syntax_only .not_finished = false := by
  constructor
  · simp [gdsl_verify_scan, scan_loop, init_report, gdsl_state_reset,
      add_diagnostic, GDSL_VERIFY_MAX_DIAGNOSTICS, GDSL_VERIFY_LEVEL_SYNTAX]
  · rfl

/-- C4 (amended): at Syntax level (0) the scan body emits only unknown-opcode
and truncated-instruction errors; the only other diagnostics a report can
contain are the two level-independent end-of-scan terminal errors
(unterminated snapshot / stream not finished).  No per-instruction phase,
domain, or snapshot diagnostic is emitted. -/
theorem gdsl_verify_syntax_level_diagnostics (bytes : List Nat)
    (d : gdsl_verify_diagnostic_t)
    (hd : d ∈ (gdsl_verify_scan bytes GDSL_VERIFY_LEVEL_SYNTAX).diagnostics) :
    msg_is_syntax_only d.message = true ∨
      d.message = gdsl_message.unterminated_snapshot ∨
      d.message = gdsl_message.not_finished := by
  have base := scan_loop_zero_msgs bytes 0 gdsl_state_reset init_report
    (by simp [init_report])
  simp only [gdsl_verify_scan] at hd
  split_ifs at hd <;>
  · first
      | (rcases add_diagnostic_mem hd with hd1 | hd1
         · rcases add_diagnostic_mem hd1 with hd2 | hd2
           · exact Or.inl (base d hd2)
           · subst hd2; exact Or.inr (Or.inl rfl)
         · subst hd1; exact Or.inr (Or.inr rfl))
      | (rcases add_diagnostic_mem hd with hd1 | hd1
         · exact Or.inl (base d hd1)
         · subst hd1
           first
             | exact Or.inr (Or.inl rfl)
             | exact Or.inr (Or.inr rfl))
      | exact Or.inl (base d hd)

/-- C4 witness: the terminal diagnostic of the empty stream satisfies the
amended classification. -/
theorem gdsl_verify_syntax_level_diagnostics_witness :
    msg_is_syntax_only gdsl_message.not_finished = true ∨
      gdsl_message.not_finished = gdsl_message.unterminated_snapshot ∨
      gdsl_message.not_finished = gdsl_message.not_finished :=
  gdsl_verify_syntax_level_diagnostics [] ⟨0, .error, .not_finished⟩
    (by simp [gdsl_verify_scan, scan_loop, init_report, gdsl_state_reset,
      add_diagnostic, GDSL_VERIFY_MAX_DIAGNOSTICS, GDSL_VERIFY_LEVEL_SYNTAX])

/-! ## Lemmas about the delta engine -/

lemma min_size_eq (a b : Nat) : min_size a b = min a b := by
  unfold min_size
  split <;> omega

lemma target_span_le_page_size (bl tl ps p : Nat) : target_span bl tl ps p ≤ ps := by
  simp only [target_span, page_span, min_size]
  split_ifs <;> omega

lemma target_span_bound {bl tl ps p : Nat} (h : target_span bl tl ps p ≠ 0) :
    p * ps < tl ∧ p * ps + target_span bl tl ps p ≤ tl := by
  simp only [target_span, page_span, min_size] at *
  split_ifs at * <;> omega

lemma base_byte_eq (base : List Nat) {tspan : Nat} (off i : Nat) (hi : i < tspan) :
    (if i < base_available base.length tspan off then base.getD (off + i) 0 else 0) =
      base.getD (off + i) 0 := by
  unfold base_available min_size
  split_ifs <;> first
    | rfl
    | (rw [List.getD_eq_default _ _ (by omega)])

lemma page_changed_eq_false_iff (base target : List Nat) (ps p : Nat) :
    page_changed base target ps p = false ↔
      ∀ i < target_span base.length target.length ps p,
        base.getD (p * ps + i) 0 = target.getD (p * ps + i) 0 := by
  simp only [page_changed, List.any_eq_false, List.mem_range]
  constructor
  · intro h i hi
    have hx := h i hi
    rw [base_byte_eq base (p * ps) i hi, if_pos hi] at hx
    simpa using hx
  · intro h i hi
    rw [base_byte_eq base (p * ps) i hi, if_pos hi]
    simpa using h i hi

lemma page_changed_tspan_pos {base target : List Nat} {ps p : Nat}
    (h : page_changed base target ps p = true) :
    0 < target_span base.length target.length ps p := by
  simp only [page_changed, List.any_eq_true, List.mem_range] at h
  obtain ⟨i, hi, -⟩ := h
  omega

lemma page_changed_self (x : List Nat) (ps p : Nat) :
    page_changed x x ps p = false := by
  rw [page_changed_eq_false_iff]
  intro i hi
  rfl

lemma diff_pass_self (x : List Nat) (ps : Nat) :
    ∀ n, diff_pass x x ps n = ([], []) := by
  intro n
  induction n with
  | zero => rfl
  | succ n ih =>
    rw [diff_pass, ih, page_changed_self]
    simp

/-- C8: diffing any buffer against itself succeeds with zero chunks and an
empty payload. -/
theorem gdsl_diff_self_empty (x : List Nat) :
    (gdsl_diff x x).chunks = [] ∧ (gdsl_diff x x).payload = [] := by
  simp only [gdsl_diff, diff_pass_self]
  exact ⟨trivial, trivial⟩

lemma page_bytes_length (target : List Nat) (off tspan : Nat) :
    (page_bytes target off tspan).length = tspan := by
  simp [page_bytes]

lemma page_bytes_getD (target : List Nat) (off : Nat) {tspan i : Nat}
    (hi : i < tspan) :
    (page_bytes target off tspan).getD i 0 = target.getD (off + i) 0 := by
  unfold page_bytes
  rw [List.getD_eq_getElem?_getD, List.getElem?_map, List.getElem?_range hi]
  simp [hi, List.getD_eq_getElem?_getD]

lemma offsets_from_append {cs : List gdsl_diff_chunk_t} {off : Nat}
    (h : offsets_from off cs) {rest : List gdsl_diff_chunk_t}
    (h2 : offsets_from (off + (cs.map (fun c => c.length)).sum) rest) :
    offsets_from off (cs ++ rest) := by
  induction cs generalizing off with
  | nil => simpa using h2
  | cons c cs ih =>
    obtain ⟨h1, hr⟩ := h
    simp only [List.map_cons, List.sum_cons] at h2
    exact ⟨h1, ih hr (by rw [← Nat.add_assoc] at h2; exact h2)⟩

lemma offsets_from_get {cs : List gdsl_diff_chunk_t} :
    ∀ {off : Nat}, offsets_from off cs →
    ∀ (k : Nat) (hk : k < cs.length),
      (cs.get ⟨k, hk⟩).data_offset =
        off + ((cs.take k).map (fun c => c.length)).sum := by
  induction cs with
  | nil =>
    intro off h k hk
    exact absurd hk (by simp)
  | cons c cs ih =>
    intro off h k hk
    obtain ⟨h1, hr⟩ := h
    cases k with
    | zero => simpa using h1
    | succ k =>
      simp only [List.get_cons_succ, List.take_succ_cons, List.map_cons,
        List.sum_cons]
      rw [ih hr k (by simpa using hk)]
      omega

lemma drop_take_append {pl b : List Nat} {o l : Nat} (h : o + l ≤ pl.length) :
    ((pl ++ b).drop o).take l = (pl.drop o).take l := by
  rw [List.drop_append_of_le_length (by omega)]
  rw [List.take_append_of_le_length (by simp; omega)]

lemma diff_pass_spec (base target : List Nat) (ps : Nat) :
    ∀ n : Nat,
      (∀ c ∈ (diff_pass base target ps n).1,
        c.page_index < n ∧
        c.length = target_span base.length target.length ps c.page_index ∧
        page_changed base target ps c.page_index = true) ∧
      (diff_pass base target ps n).1.Pairwise
        (fun a b => a.page_index < b.page_index) ∧
      offsets_from 0 (diff_pass base target ps n).1 ∧
      ((diff_pass base target ps n).1.map (fun c => c.length)).sum =
        (diff_pass base target ps n).2.length ∧
      (∀ c ∈ (diff_pass base target ps n).1,
        c.data_offset + c.length ≤ (diff_pass base target ps n).2.length ∧
        ((diff_pass base target ps n).2.drop c.data_offset).take c.length =
          page_bytes target (c.page_index * ps) c.length) ∧
      (∀ p < n, target_span base.length target.length ps p ≠ 0 →
        page_changed base target ps p = true →
        ∃ c ∈ (diff_pass base target ps n).1, c.page_index = p) ∧
      (diff_pass base target ps n).2.length ≤ n * ps := by
  intro n
  induction n with
  | zero => simp [diff_pass, offsets_from]
  | succ n ih =>
    obtain ⟨ha, hb, hc, hd, he, hf, hg⟩ := ih
    simp only [diff_pass]
    split_ifs with h1 h2
    · -- target_span = 0: page skipped
      refine ⟨?_, hb, hc, hd, he, ?_, ?_⟩
      · intro c hc2
        obtain ⟨hlt, hrest⟩ := ha c hc2
        exact ⟨Nat.lt_succ_of_lt hlt, hrest⟩
      · intro p hp hts hch
        rcases Nat.lt_succ_iff_lt_or_eq.mp hp with hp2 | hp2
        · exact hf p hp2 hts hch
        · subst hp2; exact absurd h1 hts
      · have h9 : (n + 1) * ps = n * ps + ps := by ring
        omega
    · -- page changed: chunk and payload bytes emitted
      have hlen := page_bytes_length target (n * ps)
        (target_span base.length target.length ps n)
      refine ⟨?_, ?_, ?_, ?_, ?_, ?_, ?_⟩
      · intro c hc2
        rw [List.mem_append, List.mem_singleton] at hc2
        rcases hc2 with hc2 | hc2
        · obtain ⟨hlt, hrest⟩ := ha c hc2
          exact ⟨Nat.lt_succ_of_lt hlt, hrest⟩
        · subst hc2
          exact ⟨Nat.lt_succ_self n, rfl, h2⟩
      · rw [List.pairwise_append]
        refine ⟨hb, by simp, ?_⟩
        intro a ha2 b hb2
        rw [List.mem_singleton] at hb2
        subst hb2
        exact (ha a ha2).1
      · apply offsets_from_append hc
        refine ⟨?_, trivial⟩
        dsimp only
        omega
      · simp only [List.map_append, List.sum_append, List.length_append,
          List.map_cons, List.sum_cons, List.map_nil, List.sum_nil, hlen]
        omega
      · intro c hc2
        rw [List.mem_append, List.mem_singleton] at hc2
        rcases hc2 with hc2 | hc2
        · obtain ⟨hbound, hslice⟩ := he c hc2
          refine ⟨by simp [hlen]; omega, ?_⟩
          rw [drop_take_append hbound, hslice]
        · subst hc2
          refine ⟨by simp [hlen], ?_⟩
          dsimp only
          rw [List.drop_left]
          exact List.take_of_length_le (le_of_eq hlen)
      · intro p hp hts hch
        rcases Nat.lt_succ_iff_lt_or_eq.mp hp with hp2 | hp2
        · obtain ⟨c, hc2, hc3⟩ := hf p hp2 hts hch
          exact ⟨c, List.mem_append_left _ hc2, hc3⟩
        · subst hp2
          exact ⟨⟨p, target_span base.length target.length ps p,
              (diff_pass base target ps p).2.length⟩,
            List.mem_append_right _ (List.mem_singleton.mpr rfl), rfl⟩
      · simp only [List.length_append, hlen]
        have h8 := target_span_le_page_size base.length target.length ps n
        have h9 : (n + 1) * ps = n * ps + ps := by ring
        omega
    · -- page unchanged: skipped
      refine ⟨?_, hb, hc, hd, he, ?_, ?_⟩
      · intro c hc2
        obtain ⟨hlt, hrest⟩ := ha c hc2
        exact ⟨Nat.lt_succ_of_lt hlt, hrest⟩
      · intro p hp hts hch
        rcases Nat.lt_succ_iff_lt_or_eq.mp hp with hp2 | hp2
        · exact hf p hp2 hts hch
        · subst hp2; exact absurd hch (by simp [h2])
      · have h9 : (n + 1) * ps = n * ps + ps := by ring
        omega

lemma diff_pass_length_of_all (base target : List Nat) (ps : Nat) :
    ∀ n, (∀ p < n,
      target_span base.length target.length ps p ≠ 0 ∧
      page_changed base target ps p = true) →
    (diff_pass base target ps n).1.length = n := by
  intro n
  induction n with
  | zero => intro h; rfl
  | succ n ih =>
    intro h
    obtain ⟨hts, hch⟩ := h n (Nat.lt_succ_self n)
    simp only [diff_pass]
    rw [if_neg hts, if_pos hch]
    simp [ih (fun p hp => h p (Nat.lt_succ_of_lt hp))]

lemma replicate_page_facts (p : Nat) (hp : p < 2 ^ 32) :
    target_span ([] : List Nat).length (List.replicate (2 ^ 44) (1 : Nat)).length
        4096 p ≠ 0 ∧
    page_changed [] (List.replicate (2 ^ 44) (1 : Nat)) 4096 p = true := by
  have hts : target_span 0 (2 ^ 44) 4096 p = 4096 := by
    simp only [target_span, page_span, min_size]
    split_ifs <;> omega
  constructor
  · simp only [List.length_nil, List.length_replicate]
    rw [hts]
    norm_num
  · simp only [page_changed, List.length_nil, List.length_replicate]
    rw [hts]
    rw [List.any_eq_true]
    refine ⟨0, List.mem_range.mpr (by norm_num), ?_⟩
    have hb : base_available 0 4096 (p * 4096) = 0 := by
      simp [base_available]
    rw [hb]
    have hg : (List.replicate (2 ^ 44) (1 : Nat)).getD (p * 4096 + 0) 0 = 1 := by
      rw [List.getD_eq_getElem?_getD, List.getElem?_replicate]
      rw [if_pos (by omega)]
      rfl
    rw [if_neg (show ¬(0 : Nat) < 0 by norm_num),
      if_pos (show (0 : Nat) < 4096 by norm_num), hg]
    rfl

/-- C5 counterexample: `header.chunk_count` is a `uint32_t`, so a diff with
`2 ^ 32` changed pages (base empty, target `2 ^ 44` bytes of 1s) stores
`chunk_count = 0` while the chunk list has `2 ^ 32` entries — invariant 5 of
§3.1 fails as universally stated. -/
lemma gdsl_diff_def (base target : List Nat) :
    gdsl_diff base target =
      { header :=
          { version := GDSL_DIFF_VERSION
            page_size := GDSL_DEFAULT_PAGE_SIZE
            flags := 0
            chunk_count :=
              (diff_pass base target GDSL_DEFAULT_PAGE_SIZE
                (page_count_for_length
                  (if base.length > target.length then base.length
                    else target.length) GDSL_DEFAULT_PAGE_SIZE)).1.length % 2 ^ 32
            target_length := target.length }
        chunks :=
          (diff_pass base target GDSL_DEFAULT_PAGE_SIZE
            (page_count_for_length
              (if base.length > target.length then base.length
                else target.length) GDSL_DEFAULT_PAGE_SIZE)).1
        payload :=
          (diff_pass base target GDSL_DEFAULT_PAGE_SIZE
            (page_count_for_length
              (if base.length > target.length then base.length
                else target.length) GDSL_DEFAULT_PAGE_SIZE)).2 } := rfl

lemma gdsl_diff_chunks_eq (base target : List Nat) :
    (gdsl_diff base target).chunks =
      (diff_pass base target GDSL_DEFAULT_PAGE_SIZE
        (page_count_for_length
          (if base.length > target.length then base.length else target.length)
          GDSL_DEFAULT_PAGE_SIZE)).1 := rfl

lemma gdsl_diff_header_chunk_count (base target : List Nat) :
    (gdsl_diff base target).header.chunk_count =
      (gdsl_diff base target).chunks.length % 2 ^ 32 := rfl

/-- C5 counterexample (continued): the concrete diff above. -/
theorem gdsl_diff_chunk_count_counterexample :
    (gdsl_diff [] (List.replicate (2 ^ 44) (1 : Nat))).header.chunk_count ≠
      (gdsl_diff [] (List.replicate (2 ^ 44) (1 : Nat))).chunks.length := by
  have htot : page_count_for_length (2 ^ 44) GDSL_DEFAULT_PAGE_SIZE = 2 ^ 32 := by
    unfold page_count_for_length GDSL_DEFAULT_PAGE_SIZE
    norm_num
  have hif : (if ([] : List Nat).length >
        (List.replicate (2 ^ 44) (1 : Nat)).length
      then ([] : List Nat).length
      else (List.replicate (2 ^ 44) (1 : Nat)).length) = 2 ^ 44 := by
    rw [List.length_nil, List.length_replicate, if_neg (by norm_num)]
  have hlen := diff_pass_length_of_all [] (List.replicate (2 ^ 44) (1 : Nat))
    GDSL_DEFAULT_PAGE_SIZE (2 ^ 32) (fun p hp => replicate_page_facts p hp)
  have h2 : (gdsl_diff [] (List.replicate (2 ^ 44) (1 : Nat))).chunks.length
      = 2 ^ 32 := by
    rw [gdsl_diff_chunks_eq, hif, htot, hlen]
  rw [gdsl_diff_header_chunk_count, h2]
  norm_num

/-- C5 (amended): every DiffResult produced by `gdsl_diff` satisfies the
§3.1 invariants with the `uint32_t` cast made explicit: chunks are in
strictly increasing `page_index` order, every `data_offset` is the prefix sum
of the earlier chunk lengths, the chunk lengths sum to the payload length,
`page_index * page_size + length ≤ target_length` for every chunk, and
`header.chunk_count` equals the number of chunks reduced modulo `2 ^ 32`
(hence equals the number of chunks whenever that number is below `2 ^ 32`). -/
theorem gdsl_diff_result_invariants (base target : List Nat) :
    (gdsl_diff base target).chunks.Pairwise
      (fun a b => a.page_index < b.page_index) ∧
    (∀ (k : Nat) (hk : k < (gdsl_diff base target).chunks.length),
      ((gdsl_diff base target).chunks.get ⟨k, hk⟩).data_offset =
        (((gdsl_diff base target).chunks.take k).map (fun c => c.length)).sum) ∧
    ((gdsl_diff base target).chunks.map (fun c => c.length)).sum =
      (gdsl_diff base target).payload.length ∧
    (∀ c ∈ (gdsl_diff base target).chunks,
      c.page_index * (gdsl_diff base target).header.page_size + c.length ≤
        (gdsl_diff base target).header.target_length) ∧
    (gdsl_diff base target).header.chunk_count =
      (gdsl_diff base target).chunks.length % 2 ^ 32 := by
  obtain ⟨ha, hb, hc, hd, he, hf, hg⟩ :=
    diff_pass_spec base target GDSL_DEFAULT_PAGE_SIZE
      (page_count_for_length
        (if base.length > target.length then base.length else target.length)
        GDSL_DEFAULT_PAGE_SIZE)
  refine ⟨hb, ?_, hd, ?_, rfl⟩
  · intro k hk
    have h := offsets_from_get hc k hk
    simpa using h
  · intro c hcm
    obtain ⟨-, hlen, hch⟩ := ha c hcm
    have hts : target_span base.length target.length GDSL_DEFAULT_PAGE_SIZE
        c.page_index ≠ 0 := by
      have := page_changed_tspan_pos hch
      omega
    have hbd := (target_span_bound hts).2
    show c.page_index * GDSL_DEFAULT_PAGE_SIZE + c.length ≤ target.length
    rw [hlen]
    exact hbd

lemma checked_mul_eq_some {a b : Nat} (h : a * b ≤ SIZE_MAX) :
    checked_mul a b = some (a * b) := by
  unfold checked_mul
  split_ifs with h1 h2
  · rcases h1 with h1 | h1 <;> subst h1 <;> simp
  · exfalso
    have hb : 0 < b := by omega
    exact absurd ((Nat.le_div_iff_mul_le hb).mpr h) (by omega)
  · rfl

lemma checked_add_eq_some {a b : Nat} (h : a + b ≤ SIZE_MAX) :
    checked_add a b = some (a + b) := by
  unfold checked_add
  rw [if_neg (by omega)]

lemma write_at_length {buffer data : List Nat} {pos : Nat}
    (h : pos + data.length ≤ buffer.length) :
    (write_at buffer pos data).length = buffer.length := by
  unfold write_at
  simp only [List.length_append, List.length_take, List.length_drop]
  omega

lemma write_at_nil {buffer : List Nat} {pos : Nat} :
    write_at buffer pos [] = buffer := by
  unfold write_at
  simp [List.take_append_drop]

lemma write_at_getD_out {buffer data : List Nat} {pos j : Nat}
    (hle : pos + data.length ≤ buffer.length)
    (hj : j < pos ∨ pos + data.length ≤ j) :
    (write_at buffer pos data).getD j 0 = buffer.getD j 0 := by
  unfold write_at
  have hpos : pos ≤ buffer.length := by omega
  have htk : (buffer.take pos).length = pos := by
    simp [List.length_take]
    omega
  rw [List.append_assoc, List.getD_eq_getElem?_getD, List.getD_eq_getElem?_getD]
  rw [List.getElem?_append]
  rcases hj with hj | hj
  · rw [if_pos (by rw [htk]; omega)]
    rw [List.getElem?_take, if_pos (by omega)]
  · rw [if_neg (by rw [htk]; omega), htk]
    rw [List.getElem?_append, if_neg (by omega), List.getElem?_drop]
    have hidx : pos + data.length + (j - pos - data.length) = j := by omega
    rw [hidx]

lemma write_at_getD_in {buffer data : List Nat} {pos j : Nat}
    (hle : pos + data.length ≤ buffer.length)
    (h1 : pos ≤ j) (h2 : j < pos + data.length) :
    (write_at buffer pos data).getD j 0 = data.getD (j - pos) 0 := by
  unfold write_at
  have htk : (buffer.take pos).length = pos := by
    simp [List.length_take]
    omega
  rw [List.append_assoc, List.getD_eq_getElem?_getD, List.getD_eq_getElem?_getD]
  rw [List.getElem?_append, if_neg (by rw [htk]; omega), htk]
  rw [List.getElem?_append, if_pos (by omega)]

lemma getD_take_drop {payload : List Nat} {o l k : Nat} (hk : k < l) :
    ((payload.drop o).take l).getD k 0 = payload.getD (o + k) 0 := by
  rw [List.getD_eq_getElem?_getD, List.getD_eq_getElem?_getD,
    List.getElem?_take, if_pos hk, List.getElem?_drop]

lemma take_drop_length_of_le {payload : List Nat} {o l : Nat}
    (h : o + l ≤ payload.length) :
    ((payload.drop o).take l).length = l := by
  simp only [List.length_take, List.length_drop]
  omega

lemma patch_apply_chunk_eq {page_size target_length : Nat}
    {payload buffer : List Nat} {c : gdsl_diff_chunk_t}
    (htl : target_length ≤ SIZE_MAX) (hpl : payload.length ≤ SIZE_MAX)
    (hb1 : c.page_index * page_size + c.length ≤ target_length)
    (hb2 : c.data_offset + c.length ≤ payload.length)
    (hbuf : buffer.length = target_length) :
    patch_apply_chunk page_size target_length payload buffer c =
      some (write_at buffer (c.page_index * page_size)
        ((payload.drop c.data_offset).take c.length)) := by
  have h1 : checked_mul c.page_index page_size =
      some (c.page_index * page_size) :=
    checked_mul_eq_some (by omega)
  have h2 : checked_add (c.page_index * page_size) c.length =
      some (c.page_index * page_size + c.length) :=
    checked_add_eq_some (by omega)
  have h3 : checked_add c.data_offset c.length =
      some (c.data_offset + c.length) :=
    checked_add_eq_some (by omega)
  simp only [patch_apply_chunk, h1, h2, h3]
  rw [if_neg (by omega), if_neg (by omega)]
  by_cases hc : 0 < c.length
  · rw [if_pos hc, if_neg (by omega), if_neg (by omega)]
  · rw [if_neg hc]
    have hzero : c.length = 0 := by omega
    rw [hzero, List.take_zero, write_at_nil]

lemma patch_loop_ok {page_size target_length : Nat} {payload : List Nat}
    (htl : target_length ≤ SIZE_MAX) (hpl : payload.length ≤ SIZE_MAX) :
    ∀ (chunks : List gdsl_diff_chunk_t) (buffer : List Nat),
    (∀ c ∈ chunks, c.page_index * page_size + c.length ≤ target_length ∧
      c.data_offset + c.length ≤ payload.length) →
    buffer.length = target_length →
    ∃ B, patch_loop page_size target_length payload chunks buffer = some B ∧
      B.length = target_length := by
  intro chunks
  induction chunks with
  | nil =>
    intro buffer _ hbuf
    exact ⟨buffer, rfl, hbuf⟩
  | cons c rest ih =>
    intro buffer hcs hbuf
    obtain ⟨h1, h2⟩ := hcs c (by simp)
    simp only [patch_loop, patch_apply_chunk_eq htl hpl h1 h2 hbuf]
    apply ih
    · intro d hd
      exact hcs d (List.mem_cons_of_mem _ hd)
    · rw [write_at_length]
      · exact hbuf
      · rw [take_drop_length_of_le h2]
        omega

lemma patch_loop_getD_untouched {page_size target_length : Nat}
    {payload : List Nat}
    (htl : target_length ≤ SIZE_MAX) (hpl : payload.length ≤ SIZE_MAX) :
    ∀ (chunks : List gdsl_diff_chunk_t) (buffer B : List Nat),
    (∀ c ∈ chunks, c.page_index * page_size + c.length ≤ target_length ∧
      c.data_offset + c.length ≤ payload.length) →
    buffer.length = target_length →
    patch_loop page_size target_length payload chunks buffer = some B →
    ∀ j, (∀ c ∈ chunks, ¬ chunk_covers page_size c j) →
    B.getD j 0 = buffer.getD j 0 := by
  intro chunks
  induction chunks with
  | nil =>
    intro buffer B _ _ hloop j _
    cases hloop
    rfl
  | cons c rest ih =>
    intro buffer B hcs hbuf hloop j hnc
    obtain ⟨h1, h2⟩ := hcs c (by simp)
    have hdl : ((payload.drop c.data_offset).take c.length).length = c.length :=
      take_drop_length_of_le h2
    simp only [patch_loop, patch_apply_chunk_eq htl hpl h1 h2 hbuf] at hloop
    have hW : (write_at buffer (c.page_index * page_size)
        ((payload.drop c.data_offset).take c.length)).getD j 0 =
        buffer.getD j 0 := by
      apply write_at_getD_out
      · rw [hdl]; omega
      · have := hnc c (by simp)
        unfold chunk_covers at this
        rw [hdl]
        omega
    rw [← hW]
    apply ih _ _ (fun d hd => hcs d (List.mem_cons_of_mem _ hd)) _ hloop j
      (fun d hd => hnc d (List.mem_cons_of_mem _ hd))
    rw [write_at_length (by rw [hdl]; omega)]
    exact hbuf

lemma patch_loop_getD_covered {page_size target_length : Nat}
    {payload : List Nat}
    (htl : target_length ≤ SIZE_MAX) (hpl : payload.length ≤ SIZE_MAX) :
    ∀ (chunks : List gdsl_diff_chunk_t) (buffer B : List Nat),
    (∀ c ∈ chunks, c.page_index * page_size + c.length ≤ target_length ∧
      c.data_offset + c.length ≤ payload.length) →
    chunks.Pairwise (fun a b => ∀ j,
      ¬ (chunk_covers page_size a j ∧ chunk_covers page_size b j)) →
    buffer.length = target_length →
    patch_loop page_size target_length payload chunks buffer = some B →
    ∀ c ∈ chunks, ∀ j, chunk_covers page_size c j →
    B.getD j 0 =
      payload.getD (c.data_offset + (j - c.page_index * page_size)) 0 := by
  intro chunks
  induction chunks with
  | nil =>
    intro buffer B _ _ _ _ c hc
    exact absurd hc (by simp)
  | cons c0 rest ih =>
    intro buffer B hcs hpw hbuf hloop c hc j hcov
    obtain ⟨h1, h2⟩ := hcs c0 (by simp)
    have hdl : ((payload.drop c0.data_offset).take c0.length).length = c0.length :=
      take_drop_length_of_le h2
    simp only [patch_loop, patch_apply_chunk_eq htl hpl h1 h2 hbuf] at hloop
    rw [List.pairwise_cons] at hpw
    obtain ⟨hpw0, hpwr⟩ := hpw
    have hWlen : (write_at buffer (c0.page_index * page_size)
        ((payload.drop c0.data_offset).take c0.length)).length = target_length := by
      rw [write_at_length (by rw [hdl]; omega)]
      exact hbuf
    rcases List.mem_cons.mp hc with hc | hc
    · subst hc
      have hW : (write_at buffer (c.page_index * page_size)
          ((payload.drop c.data_offset).take c.length)).getD j 0 =
          payload.getD (c.data_offset + (j - c.page_index * page_size)) 0 := by
        unfold chunk_covers at hcov
        rw [write_at_getD_in (by rw [hdl]; omega) (by omega) (by rw [hdl]; omega)]
        rw [getD_take_drop (by omega)]
      rw [← hW]
      apply patch_loop_getD_untouched htl hpl rest _ _
        (fun d hd => hcs d (List.mem_cons_of_mem _ hd)) hWlen hloop j
      intro d hd hdc
      exact hpw0 d hd j ⟨hcov, hdc⟩
    · exact ih _ _ (fun d hd => hcs d (List.mem_cons_of_mem _ hd)) hpwr hWlen
        hloop c hc j hcov

lemma patch_init_buffer_length (base : List Nat) (tl : Nat) :
    (patch_init_buffer base tl).length = tl := by
  unfold patch_init_buffer write_at min_size
  simp only [List.length_append, List.length_take, List.length_drop,
    List.length_replicate]
  split_ifs <;> omega

lemma patch_init_buffer_getD (base : List Nat) {tl j : Nat} (hj : j < tl) :
    (patch_init_buffer base tl).getD j 0 = base.getD j 0 := by
  unfold patch_init_buffer
  have hmin : min_size base.length tl = min base.length tl := min_size_eq _ _
  have hdlen : (base.take (min_size base.length tl)).length =
      min base.length tl := by
    rw [hmin]
    simp only [List.length_take]
    omega
  by_cases hcase : j < min base.length tl
  · rw [write_at_getD_in (by simp only [List.length_replicate]; omega)
      (by omega) (by omega)]
    rw [Nat.sub_zero, List.getD_eq_getElem?_getD, List.getElem?_take,
      if_pos (by rw [hmin]; omega), List.getD_eq_getElem?_getD]
  · rw [write_at_getD_out (by simp only [List.length_replicate]; omega)
      (Or.inr (by omega))]
    rw [List.getD_eq_getElem?_getD, List.getElem?_replicate, if_pos hj]
    rw [List.getD_eq_default _ _ (by omega)]
    rfl

lemma gdsl_patch_shape (base : List Nat) (diff : gdsl_diff_result_t) :
    gdsl_patch base diff = (-1, none, 0) ∨ gdsl_patch base diff = (0, none, 0) ∨
    ∃ B, gdsl_patch base diff = (0, some B, diff.header.target_length) := by
  simp only [gdsl_patch]
  split_ifs
  · left; rfl
  · left; rfl
  · right; left; rfl
  all_goals
    split
    · left; rfl
    · right; right; exact ⟨_, rfl⟩

/-! ## Claim theorems: delta engine -/

/-- C9: whenever `gdsl_patch` returns an error (with non-null output
pointers), the caller observes no partial result: `*out_buffer` is NULL and
`*out_length` is 0.  (Release of the internal buffer is a memory effect the
embedding does not model; every error path in diff.c frees it before
returning.) -/
theorem gdsl_patch_error_resets (base : List Nat) (diff : gdsl_diff_result_t)
    (h : (gdsl_patch base diff).1 ≠ 0) :
    (gdsl_patch base diff).2.1 = none ∧ (gdsl_patch base diff).2.2 = 0 := by
  rcases gdsl_patch_shape base diff with hs | hs | ⟨B, hs⟩ <;> rw [hs] at h ⊢
  · exact ⟨rfl, rfl⟩
  · exact absurd rfl h
  · exact absurd rfl h

/-- C9 witness: a diff with `target_length = 0` but a (zero-length) chunk is
rejected, and the out-parameters read NULL and 0. -/
theorem gdsl_patch_error_resets_witness :
    (gdsl_patch []
      { header := { version := 1, page_size := 4096, flags := 0,
                    chunk_count := 1, target_length := 0 },
        chunks := [⟨0, 0, 0⟩], payload := [] }).2.1 = none ∧
    (gdsl_patch []
      { header := { version := 1, page_size := 4096, flags := 0,
                    chunk_count := 1, target_length := 0 },
        chunks := [⟨0, 0, 0⟩], payload := [] }).2.2 = 0 :=
  gdsl_patch_error_resets []
    { header := { version := 1, page_size := 4096, flags := 0,
                  chunk_count := 1, target_length := 0 },
      chunks := [⟨0, 0, 0⟩], payload := [] } (by decide)

/-- C10 counterexample: with `target_length = 0` and `page_size = 1`, the
duplicated chunk pair `[⟨0,0,0⟩, ⟨0,0,0⟩]` satisfies both per-chunk bounds
checks, yet `gdsl_patch` rejects the diff (the empty-target consistency check
`target_length == 0 && chunk_count != 0` fires), so bounds satisfaction alone
does not guarantee acceptance. -/
theorem gdsl_patch_bounds_not_sufficient_counterexample :
    (∀ c ∈ ({ header := { version := 1, page_size := 1, flags := 0,
                          chunk_count := 2, target_length := 0 },
              chunks := [⟨0, 0, 0⟩, ⟨0, 0, 0⟩],
              payload := [] } : gdsl_diff_result_t).chunks,
      c.page_index * 1 + c.length ≤ 0 ∧ c.data_offset + c.length ≤ 0) ∧
    (gdsl_patch []
      { header := { version := 1, page_size := 1, flags := 0,
                    chunk_count := 2, target_length := 0 },
        chunks := [⟨0, 0, 0⟩, ⟨0, 0, 0⟩], payload := [] }).1 ≠ 0 := by
  decide

/-- C10 (amended): `gdsl_patch` does not enforce the chunk-ordering
invariant: provided `target_length ≠ 0`, any DiffResult whose chunks each
individually satisfy the bounds checks — out-of-order, duplicated, or
overlapping chunks included — is accepted and patched without error, each
chunk being written in sequence (so later chunks overwrite bytes written by
earlier ones). -/
theorem gdsl_patch_accepts_unordered_chunks (base : List Nat)
    (diff : gdsl_diff_result_t)
    (htl : diff.header.target_length ≤ SIZE_MAX)
    (hpl : diff.payload.length ≤ SIZE_MAX)
    (htl0 : diff.header.target_length ≠ 0)
    (hbounds : ∀ c ∈ diff.chunks,
      c.page_index * (if diff.header.page_size ≠ 0 then diff.header.page_size
        else GDSL_DEFAULT_PAGE_SIZE) + c.length ≤ diff.header.target_length ∧
      c.data_offset + c.length ≤ diff.payload.length) :
    ∃ B, gdsl_patch base diff = (0, some B, diff.header.target_length) ∧
      B.length = diff.header.target_length := by
  have hpre : ¬(diff.chunks.length > 0 ∧ diff.payload.length = 0 ∧
      diff.chunks.any (fun c => 0 < c.length) = true) := by
    rintro ⟨-, h2, h3⟩
    rw [List.any_eq_true] at h3
    obtain ⟨c, hc, hclen⟩ := h3
    have := (hbounds c hc).2
    simp only [decide_eq_true_eq] at hclen
    omega
  obtain ⟨B, hB, hBlen⟩ := patch_loop_ok htl hpl diff.chunks
    (patch_init_buffer base diff.header.target_length) hbounds
    (patch_init_buffer_length base diff.header.target_length)
  refine ⟨B, ?_, hBlen⟩
  simp only [gdsl_patch]
  rw [if_neg hpre, if_neg htl0, hB]

/-- C10 witness: page size 2, target length 4, chunks out of order with a
duplicated page; the theorem accepts it and direct evaluation shows the later
chunk for page 1 overwriting the earlier one's first byte. -/
theorem gdsl_patch_accepts_unordered_chunks_witness :
    (∃ B, gdsl_patch []
        { header := { version := 1, page_size := 2, flags := 0,
                      chunk_count := 3, target_length := 4 },
          chunks := [⟨1, 2, 0⟩, ⟨0, 2, 2⟩, ⟨1, 1, 4⟩],
          payload := [9, 9, 8, 8, 7] } =
        (0, some B, 4) ∧ B.length = 4) ∧
    gdsl_patch []
      { header := { version := 1, page_size := 2, flags := 0,
                    chunk_count := 3, target_length := 4 },
        chunks := [⟨1, 2, 0⟩, ⟨0, 2, 2⟩, ⟨1, 1, 4⟩],
        payload := [9, 9, 8, 8, 7] } =
      (0, some [8, 8, 7, 9], 4) :=
  ⟨gdsl_patch_accepts_unordered_chunks []
      { header := { version := 1, page_size := 2, flags := 0,
                    chunk_count := 3, target_length := 4 },
        chunks := [⟨1, 2, 0⟩, ⟨0, 2, 2⟩, ⟨1, 1, 4⟩],
        payload := [9, 9, 8, 8, 7] }
      (by decide) (by decide) (by decide) (by decide),
   by decide⟩

/-- C2 divergence witness: `gdsl_patch` in diff.c substitutes the default
page size when the header says `page_size = 0` and succeeds, and it accepts a
chunk whose `length` (2) exceeds `page_size` (1); the spec's canonical
(stricter) validation demands `InvalidArgument` for both. -/
theorem gdsl_patch_lenient_validation_eval :
    gdsl_patch []
      { header := { version := 1, page_size := 0, flags := 0,
                    chunk_count := 0, target_length := 1 },
        chunks := [], payload := [] } = (0, some [0], 1) ∧
    gdsl_patch []
      { header := { version := 1, page_size := 1, flags := 0,
                    chunk_count := 1, target_length := 2 },
        chunks := [⟨0, 2, 0⟩], payload := [5, 6] } = (0, some [5, 6], 2) := by
  decide

/-- C3 divergence witness: when the destination capacity (0) is smaller than
the chunk count (1), `gdsl_read_changed_set` returns `-1` without writing the
pages — but also without writing `*out_count` (`none`), although the spec
says the count is always returned. -/
theorem gdsl_read_changed_set_capacity_eval :
    gdsl_read_changed_set
      { header := { version := 1, page_size := 4096, flags := 0,
                    chunk_count := 1, target_length := 1 },
        chunks := [⟨0, 1, 0⟩], payload := [7] } true 0 = (-1, none, none) := by
  decide

lemma page_count_mul_bounds {M : Nat} (h : M + 4095 ≤ SIZE_MAX) :
    M ≤ page_count_for_length M 4096 * 4096 ∧
    page_count_for_length M 4096 * 4096 ≤ M + 4095 := by
  unfold page_count_for_length SIZE_MAX at *
  split_ifs with h0
  · omega
  · rw [Nat.mod_eq_of_lt (by omega)]
    have hdm := Nat.div_add_mod (M + 4095) 4096
    have hmlt : (M + 4095) % 4096 < 4096 := Nat.mod_lt _ (by norm_num)
    constructor <;> omega

lemma target_span_lower {bl tl j : Nat} (hj : j < tl) :
    j % 4096 < target_span bl tl 4096 (j / 4096) := by
  simp only [target_span, page_span, min_size]
  have h1 := Nat.div_add_mod j 4096
  have h2 : j % 4096 < 4096 := Nat.mod_lt _ (by norm_num)
  split_ifs <;> omega

lemma gdsl_diff_chunks_4096 (base target : List Nat) :
    (gdsl_diff base target).chunks =
      (diff_pass base target 4096
        (page_count_for_length
          (if base.length > target.length then base.length else target.length)
          4096)).1 := rfl

lemma gdsl_diff_payload_4096 (base target : List Nat) :
    (gdsl_diff base target).payload =
      (diff_pass base target 4096
        (page_count_for_length
          (if base.length > target.length then base.length else target.length)
          4096)).2 := rfl

lemma gdsl_diff_target_length_eq (base target : List Nat) :
    (gdsl_diff base target).header.target_length = target.length := rfl

lemma gdsl_diff_page_size_eq (base target : List Nat) :
    (gdsl_diff base target).header.page_size = 4096 := rfl

lemma gdsl_diff_chunks_nil_of_target_nil (base : List Nat) :
    (gdsl_diff base ([] : List Nat)).chunks = [] := by
  obtain ⟨ha, -, -, -, -, -, -⟩ := diff_pass_spec base [] 4096
    (page_count_for_length
      (if base.length > ([] : List Nat).length then base.length
        else ([] : List Nat).length) 4096)
  rcases hnil : (gdsl_diff base ([] : List Nat)).chunks with - | ⟨c, rest⟩
  · rfl
  · exfalso
    have hc : c ∈ (gdsl_diff base ([] : List Nat)).chunks := by
      rw [hnil]
      simp
    rw [gdsl_diff_chunks_4096] at hc
    obtain ⟨-, -, hch⟩ := ha c hc
    have hpos := page_changed_tspan_pos hch
    have hts : target_span base.length ([] : List Nat).length 4096
        c.page_index ≠ 0 := by omega
    have h0 := (target_span_bound hts).1
    simp only [List.length_nil] at h0
    omega

/-- C1: for every base and target (lengths small enough that the `size_t`
page-count arithmetic cannot wrap — true of any buffer a real address space
can hold), patching the base with `gdsl_diff base target` succeeds and
produces a buffer of length `target_length` whose bytes equal `target`
(`*out_buffer` is NULL exactly when `target_length = 0`). -/
theorem gdsl_diff_patch_roundtrip (base target : List Nat)
    (hb : base.length + 4096 ≤ 2 ^ 64) (ht : target.length + 4096 ≤ 2 ^ 64) :
    gdsl_patch base (gdsl_diff base target) =
      (0, if target = [] then none else some target, target.length) := by
  by_cases htz : target = []
  · subst htz
    have hcs := gdsl_diff_chunks_nil_of_target_nil base
    have htl0 : (gdsl_diff base ([] : List Nat)).header.target_length = 0 :=
      gdsl_diff_target_length_eq base []
    simp only [gdsl_patch, hcs, htl0]
    norm_num
  · -- nonempty target
    have htz' : target.length ≠ 0 := fun h => htz (List.length_eq_zero.mp h)
    set M := (if base.length > target.length then base.length else target.length)
      with hMdef
    have hM : M + 4095 ≤ SIZE_MAX := by
      unfold SIZE_MAX
      rw [hMdef]
      split_ifs <;> omega
    have htM : target.length ≤ M := by
      rw [hMdef]
      split_ifs <;> omega
    obtain ⟨ha, hpw, hoff, hsum, hsl, hcomp, hplen⟩ :=
      diff_pass_spec base target 4096 (page_count_for_length M 4096)
    set cs := (diff_pass base target 4096 (page_count_for_length M 4096)).1
      with hcsdef
    set pl := (diff_pass base target 4096 (page_count_for_length M 4096)).2
      with hpldef
    have hchunks : (gdsl_diff base target).chunks = cs :=
      gdsl_diff_chunks_4096 base target
    have hpayl : (gdsl_diff base target).payload = pl :=
      gdsl_diff_payload_4096 base target
    have hbounds : ∀ c ∈ cs, c.page_index * 4096 + c.length ≤ target.length ∧
        c.data_offset + c.length ≤ pl.length := by
      intro c hc
      obtain ⟨-, hlen, hch⟩ := ha c hc
      have hpos := page_changed_tspan_pos hch
      have hts : target_span base.length target.length 4096 c.page_index ≠ 0 := by
        omega
      have hb2 := (target_span_bound hts).2
      exact ⟨by rw [hlen]; exact hb2, (hsl c hc).1⟩
    have htlSZ : target.length ≤ SIZE_MAX := by unfold SIZE_MAX; omega
    have hplSZ : pl.length ≤ SIZE_MAX := by
      have h1 := (page_count_mul_bounds hM).2
      unfold SIZE_MAX at *
      omega
    have hdisj : cs.Pairwise (fun a b => ∀ j,
        ¬(chunk_covers 4096 a j ∧ chunk_covers 4096 b j)) := by
      apply List.Pairwise.imp_of_mem ?_ hpw
      intro a b hma hmb hlt j hcc
      obtain ⟨hca, hcb⟩ := hcc
      obtain ⟨-, hla, -⟩ := ha a hma
      have h4 : a.length ≤ 4096 := by
        rw [hla]
        exact target_span_le_page_size _ _ _ _
      unfold chunk_covers at hca hcb
      have h5 : (a.page_index + 1) * 4096 ≤ b.page_index * 4096 :=
        Nat.mul_le_mul_right _ (by omega)
      omega
    obtain ⟨B, hB, hBlen⟩ := patch_loop_ok htlSZ hplSZ cs
      (patch_init_buffer base target.length) hbounds
      (patch_init_buffer_length base target.length)
    have hBt : B = target := by
      apply List.ext_getElem (by rw [hBlen])
      intro j hj1 hj2
      rw [← List.getD_eq_getElem B 0 hj1, ← List.getD_eq_getElem target 0 hj2]
      have hj : j < target.length := hj2
      have hio := Nat.div_add_mod j 4096
      have hilt : j % 4096 < target_span base.length target.length 4096
          (j / 4096) := target_span_lower hj
      by_cases hch : page_changed base target 4096 (j / 4096) = true
      · -- the page was emitted as some chunk
        have hplt : j / 4096 < page_count_for_length M 4096 := by
          have h1 := (page_count_mul_bounds hM).1
          have h3 : j / 4096 * 4096 ≤ j := Nat.div_mul_le_self j 4096
          omega
        obtain ⟨c, hcmem, hcp⟩ := hcomp (j / 4096) hplt (by omega) hch
        obtain ⟨-, hclen, -⟩ := ha c hcmem
        have hcov : chunk_covers 4096 c j := by
          unfold chunk_covers
          rw [hcp, hclen, hcp]
          omega
        have hcovB := patch_loop_getD_covered htlSZ hplSZ cs
          (patch_init_buffer base target.length) B hbounds hdisj
          (patch_init_buffer_length base target.length) hB c hcmem j hcov
        have hic : j % 4096 < c.length := by
          rw [hclen, hcp]
          exact hilt
        have hi2 : j - c.page_index * 4096 = j % 4096 := by
          rw [hcp]
          omega
        have hval : pl.getD (c.data_offset + (j - c.page_index * 4096)) 0 =
            target.getD j 0 := by
          rw [hi2]
          have hL := @getD_take_drop pl c.data_offset c.length (j % 4096) hic
          rw [← hL, (hsl c hcmem).2, page_bytes_getD target _ hic, hcp]
          congr 1
          omega
        rw [hcovB, hval]
      · -- the page is unchanged: no chunk touches it
        have hnc : ∀ c ∈ cs, ¬ chunk_covers 4096 c j := by
          intro c hcmem hcov
          obtain ⟨-, hclen, hch2⟩ := ha c hcmem
          have hle : c.length ≤ 4096 := by
            rw [hclen]
            exact target_span_le_page_size _ _ _ _
          unfold chunk_covers at hcov
          have hpe : c.page_index = j / 4096 := by omega
          rw [hpe] at hch2
          exact hch hch2
        have huntouched := patch_loop_getD_untouched htlSZ hplSZ cs
          (patch_init_buffer base target.length) B hbounds
          (patch_init_buffer_length base target.length) hB j hnc
        have hinit := patch_init_buffer_getD base hj
        have hfalse : page_changed base target 4096 (j / 4096) = false := by
          revert hch
          cases page_changed base target 4096 (j / 4096) <;> simp
        have h6 := (page_changed_eq_false_iff base target 4096 (j / 4096)).mp
          hfalse (j % 4096) hilt
        have hidx : j / 4096 * 4096 + j % 4096 = j := by omega
        rw [hidx] at h6
        rw [huntouched, hinit, h6]
    have hpre : ¬(cs.length > 0 ∧ pl.length = 0 ∧
        (cs.any fun c => 0 < c.length) = true) := by
      rintro ⟨-, h2, h3⟩
      rw [List.any_eq_true] at h3
      obtain ⟨c, hc, hclen⟩ := h3
      have := (hbounds c hc).2
      simp only [decide_eq_true_eq] at hclen
      omega
    simp only [gdsl_patch, hchunks, hpayl, gdsl_diff_target_length_eq,
      gdsl_diff_page_size_eq]
    rw [if_neg hpre, if_neg htz']
    rw [if_pos (show (4096 : Nat) ≠ 0 by norm_num)]
    rw [hB, hBt, if_neg htz]

/-- C1 witness: a concrete two-byte roundtrip (`[1,2]` to `[1,3]`). -/
theorem gdsl_diff_patch_roundtrip_witness :
    gdsl_patch [1, 2] (gdsl_diff [1, 2] [1, 3]) = (0, some [1, 3], 2) := by
  have h := gdsl_diff_patch_roundtrip [1, 2] [1, 3] (by norm_num) (by norm_num)
  simpa using h
